import Mathlib

/-!
Shallow embedding of the Docker Registry HTTP API v2 client
(`src/v2/mod.rs`) for verification of its specification.

Modelling conventions:
* HTTP transport is an external collaborator: responses are supplied as
  values (`Response`), and servers as functions from URL strings to
  responses.  `hyper::Uri::from_str` is likewise external library code and
  is supplied as a validity oracle `uri_ok : String → Bool`.
* JSON bodies are modelled by the `Json` inductive; a response body of
  `none` stands for a body that is not valid JSON.  Deserialization with
  `serde_json` into the `#[derive(Deserialize)]` structs of the source is
  modelled by explicit parsers (`parse_token_auth`, `parse_errors`,
  `parse_catalog`) that require exactly the fields serde requires: fields
  of plain type are mandatory, `Option` fields tolerate absence or `null`,
  and unknown fields are ignored (serde's default behaviour).
* Machine integers: `u32` is a `Nat` checked against `2 ^ 32` at the
  deserialization boundary.
-/

/-- A JSON value, as far as the client's payloads need. -/
inductive Json where
  | jnull : Json
  | jbool : Bool → Json
  | jnum : Int → Json
  | jstr : String → Json
  | jarr : List Json → Json
  | jobj : List (String × Json) → Json

/-- First binding of a field name in a JSON object, as `serde_json`
reads the first occurrence of a key when deserializing a struct. -/
def get_field : List (String × Json) → String → Option Json
  | [], _ => none
  | (k, v) :: rest, name => if k = name then some v else get_field rest name

/-- `pub struct TokenAuth` of `src/v2/mod.rs`: `token` is mandatory, the
other three fields are `Option`al. -/
structure TokenAuth where
  token : String
  expires_in : Option Nat
  issued_at : Option String
  refresh_token : Option String
deriving DecidableEq, Repr

/-- serde deserialization of an `Option<String>` struct field: absent or
`null` denotes `None`; any non-string JSON value is a type error. -/
def opt_str_field (fs : List (String × Json)) (name : String) : Option (Option String) :=
  match get_field fs name with
  | none => some none
  | some Json.jnull => some none
  | some (Json.jstr s) => some (some s)
  | some _ => none

/-- serde deserialization of an `Option<u32>` struct field. -/
def opt_u32_field (fs : List (String × Json)) (name : String) : Option (Option Nat) :=
  match get_field fs name with
  | none => some none
  | some Json.jnull => some none
  | some (Json.jnum n) =>
      if 0 ≤ n ∧ n < 4294967296 then some (some n.toNat) else none
  | some _ => none

/-- serde deserialization of `TokenAuth` from a JSON value: the body must
be an object whose `token` field is a string; `expires_in`, `issued_at`
and `refresh_token` may be absent. -/
def parse_token_auth : Json → Option TokenAuth
  | Json.jobj fs =>
    match get_field fs "token", opt_u32_field fs "expires_in",
          opt_str_field fs "issued_at", opt_str_field fs "refresh_token" with
    | some (Json.jstr t), some e, some ia, some rt => some ⟨t, e, ia, rt⟩
    | _, _, _, _ => none
  | _ => none

/-- `pub struct ApiError` of `src/v2/mod.rs`: all three fields, including
`detail`, are plain `String`s, hence mandatory for serde. -/
structure ApiError where
  code : String
  message : String
  detail : String
deriving DecidableEq, Repr

/-- serde deserialization of one `ApiError`: `code`, `message` and
`detail` must all be present as strings. -/
def parse_api_error : Json → Option ApiError
  | Json.jobj fs =>
    match get_field fs "code", get_field fs "message", get_field fs "detail" with
    | some (Json.jstr c), some (Json.jstr m), some (Json.jstr d) => some ⟨c, m, d⟩
    | _, _, _ => none
  | _ => none

/-- `pub struct Errors` of `src/v2/mod.rs`. -/
structure Errors where
  errors : List ApiError
deriving DecidableEq, Repr

/-- serde deserialization of a `Vec<ApiError>`: every entry must parse. -/
def parse_api_errors : List Json → Option (List ApiError)
  | [] => some []
  | j :: rest =>
    match parse_api_error j with
    | some e => (parse_api_errors rest).map (fun es => e :: es)
    | none => none

/-- serde deserialization of the registry error envelope `Errors`. -/
def parse_errors : Json → Option Errors
  | Json.jobj fs =>
    match get_field fs "errors" with
    | some (Json.jarr xs) => (parse_api_errors xs).map Errors.mk
    | _ => none
  | _ => none

/-- `pub struct Catalog` of `src/v2/mod.rs`. -/
structure Catalog where
  repositories : List String
deriving DecidableEq, Repr

/-- serde deserialization of a `Vec<String>`: every entry must be a string. -/
def parse_str_list : List Json → Option (List String)
  | [] => some []
  | j :: rest =>
    match j with
    | Json.jstr s => (parse_str_list rest).map (fun l => s :: l)
    | _ => none

/-- serde deserialization of `Catalog`. -/
def parse_catalog : Json → Option Catalog
  | Json.jobj fs =>
    match get_field fs "repositories" with
    | some (Json.jarr xs) => (parse_str_list xs).map Catalog.mk
    | _ => none
  | _ => none

/-- ASCII lower-casing of one character. -/
def lower_char (c : Char) : Char :=
  if 65 ≤ c.toNat ∧ c.toNat ≤ 90 then Char.ofNat (c.toNat + 32) else c

/-- ASCII lower-casing of a string, for case-insensitive header names. -/
def lower_str (s : String) : String :=
  String.mk (s.data.map lower_char)

/-- Rust `str::split(c)` over a character list: splits at every
occurrence of `c`, preserving empty pieces; the empty input yields one
empty piece. -/
def split_char (c : Char) : List Char → List (List Char)
  | [] => [[]]
  | x :: rest =>
    match split_char c rest with
    | [] => if x = c then [[], []] else [[x]]
    | g :: gs => if x = c then [] :: g :: gs else (x :: g) :: gs

/-- Rust `str::split(c)` on a string. -/
def split_str (c : Char) (s : String) : List String :=
  (split_char c s.data).map String.mk

/-- Whether the first list is a leading segment of the second. -/
def starts_with_chars : List Char → List Char → Bool
  | [], _ => true
  | _ :: _, [] => false
  | p :: ps, x :: xs => p = x && starts_with_chars ps xs

/-- Drop the first `n` characters. -/
def drop_chars : Nat → List Char → List Char
  | 0, l => l
  | _, [] => []
  | Nat.succ n, _ :: rest => drop_chars n rest

/-- An HTTP response as the client observes it: status code, headers
(name/value pairs, a name possibly repeated), and a body.  A body of
`none` models a body that is not valid JSON. -/
structure Response where
  status : Nat
  headers : List (String × String)
  body : Option Json

/-- All values of a header name; header-name lookup is case-insensitive,
as in hyper's `Headers::get_raw`. -/
def header_values (headers : List (String × String)) (name : String) : List String :=
  (headers.filter (fun kv => lower_str kv.fst == lower_str name)).map (fun kv => kv.snd)

/-- hyper `Headers::get_raw`: `none` when the header is absent, otherwise
all of its values. -/
def get_raw (headers : List (String × String)) (name : String) : Option (List String) :=
  match header_values headers name with
  | [] => none
  | v :: rest => some (v :: rest)

/-- `pub struct Client` of `src/v2/mod.rs`.  The `hclient` transport
handle is an external collaborator and is not part of the model. -/
structure Client where
  base_url : String
  credentials : Option (String × String)
  index : String
  user_agent : Option String
  token : Option String
deriving DecidableEq, Repr

/-- An outgoing HTTP request as built by the client. -/
structure Request where
  method : String
  url : String
  req_headers : List (String × String)
deriving DecidableEq, Repr

/-- `Client::new_request`: sets `Authorization: Bearer <token>` exactly
when a token is held, and a `User-Agent` exactly when `user_agent` is
configured on the client. -/
def Client.new_request (c : Client) (method : String) (url : String) : Request :=
  let auth_headers : List (String × String) :=
    match c.token with
    | some t => [("Authorization", "Bearer " ++ t)]
    | none => []
  let ua_headers : List (String × String) :=
    match c.user_agent with
    | some ua => [("User-Agent", ua)]
    | none => []
  ⟨method, url, auth_headers ++ ua_headers⟩

/-- Modelled from the spec: the crate-level default `USER_AGENT` constant
is declared outside `src/` (only `src/v2/mod.rs` is present); the spec and
the test `test_base_useragent` use it as the default `User-Agent`.  Its
exact value is irrelevant to the claims, only that it exists. -/
def USER_AGENT : String := "docker-registry-client"

/-- Modelled from the spec: `src/v2/config.rs` is not under `src/`.  Per
spec section 4.1 and the tests `test_base_useragent` and
`test_base_custom_useragent`, a built `Client` carries the configured
`User-Agent` when one was set and the library default `USER_AGENT`
otherwise. -/
structure Config where
  registry : String
  username : Option String
  password : Option String
  user_agent_cfg : Option String
deriving DecidableEq, Repr

/-- Modelled from the spec: `Config::build` produces a `Client` with no
token and with `user_agent` defaulting to `USER_AGENT`. -/
def Config.build (cfg : Config) : Client :=
  { base_url := cfg.registry
  , credentials :=
      match cfg.username, cfg.password with
      | some u, some p => some (u, p)
      | _, _ => none
  , index := cfg.registry
  , user_agent := some (cfg.user_agent_cfg.getD USER_AGENT)
  , token := none }

/-- Response handling of `Client::is_v2_supported`: every response
resolves to `Ok`, carrying `true` exactly when the status is 200 or 401
and the raw `Docker-Distribution-API-Version` header equals
`registry/2.0` (hyper `Raw == &str`: a single value equal to it). -/
def is_v2_supported_check (r : Response) : Except String Bool :=
  match r.status, get_raw r.headers "Docker-Distribution-API-Version" with
  | 200, some x => Except.ok (x == ["registry/2.0"])
  | 401, some x => Except.ok (x == ["registry/2.0"])
  | _, _ => Except.ok false

/-- Response handling of `Client::is_auth`: every response resolves to
`Ok`, carrying `true` exactly on status 200. -/
def is_auth_check (r : Response) : Except String Bool :=
  match r.status with
  | 200 => Except.ok true
  | _ => Except.ok false

/-- The double-quote character trimmed by `v.trim_matches('"')`. -/
def quote_char : Char := '"'

/-- The `=` separator of a challenge item. -/
def eq_char : Char := '='

/-- The `,` separator between challenge items. -/
def comma_char : Char := ','

/-- Rust `str::trim_matches(c)`: removes every leading and trailing
occurrence of the character. -/
def trim_matches (c : Char) (s : String) : String :=
  String.mk (((s.data.dropWhile (fun x => x = c)).reverse.dropWhile (fun x => x = c)).reverse)

/-- Fueled helper for `trim_left_matches`; one unit of fuel per stripped
occurrence of `Bearer `, so the input length always suffices. -/
def strip_bearer_chars : Nat → List Char → List Char
  | 0, s => s
  | Nat.succ n, s =>
    if starts_with_chars ("Bearer ".data) s then strip_bearer_chars n (drop_chars 7 s) else s

/-- Rust `chal.trim_left_matches("Bearer ")`: strips the leading
`Bearer ` repeatedly. -/
def strip_bearer (s : String) : String :=
  String.mk (strip_bearer_chars s.data.length s.data)

/-- The per-item `match` of the challenge-parsing loop in `Client::login`:
`true` exactly for the item shapes the loop accepts.  An item is split on
every `=` and only its first two components are inspected. -/
def item_known (item : String) : Bool :=
  let kv := split_str eq_char item
  match kv.get? 0, kv.get? 1 with
  | some "realm", some _ => true
  | some "service", some _ => true
  | some "scope", _ => true
  | _, _ => false

/-- The challenge-parsing loop of `Client::login`, threading the mutable
`auth_ep` (realm) and `service` variables.  A `realm` or `service` item
stores its value with surrounding double quotes trimmed, a `scope` item is
skipped, and any other item aborts with `unsupported key`.  A missing
`realm` item leaves `auth_ep` at its initial empty string without error. -/
def parse_challenge_items : List String → String → Option String → Except String (String × Option String)
  | [], auth_ep, service => Except.ok (auth_ep, service)
  | item :: rest, auth_ep, service =>
    let kv := split_str eq_char item
    match kv.get? 0, kv.get? 1 with
    | some "realm", some v => parse_challenge_items rest (trim_matches quote_char v) service
    | some "service", some v => parse_challenge_items rest auth_ep (some (trim_matches quote_char v))
    | some "scope", _ => parse_challenge_items rest auth_ep service
    | _, _ => Except.error "unsupported key"

/-- Parsing of a `WWW-Authenticate` challenge value in `Client::login`:
strip the `Bearer ` prefix, split on commas, and run the item loop with
`auth_ep` initially empty and `service` initially absent. -/
def parse_challenge (chal : String) : Except String (String × Option String) :=
  parse_challenge_items (split_str comma_char (strip_bearer chal)) "" none

/-- Token-endpoint URL construction in `Client::login`: `?service=<sv>` is
appended only when the challenge supplied a service, and every requested
scope is appended as `&scope=<sc>` in caller order — with `&` even when no
`?` was ever written. -/
def build_token_ep (realm : String) (service : Option String) (scopes : List String) : String :=
  let ep :=
    match service with
    | some sv => realm ++ "?service=" ++ sv
    | none => realm
  scopes.foldl (fun acc sc => acc ++ "&scope=" ++ sc) ep

/-- Join a list of query parameters with `&`. -/
def join_amp : List String → String
  | [] => ""
  | [p] => p
  | p :: rest => p ++ "&" ++ join_amp rest

/-- Follows the spec's words (claim C6): the token-request URL is the
challenge realm plus query parameters — the `service` parameter when the
challenge supplied one, followed by one `scope` parameter per requested
scope in caller order, as repeated keys. -/
def claimed_token_ep (realm : String) (service : Option String) (scopes : List String) : String :=
  let params :=
    (match service with
     | some sv => ["service=" ++ sv]
     | none => []) ++ scopes.map (fun sc => "scope=" ++ sc)
  match params with
  | [] => realm
  | _ :: _ => realm ++ "?" ++ join_amp params

/-- The outcome of one `Client::login` call: its `Result`, the client
state after the call, and the token-exchange requests it issued. -/
structure LoginResult where
  outcome : Except String Unit
  client : Client
  token_requests : List String

/-- `Client::login`, as straight-line code over a probe response and a
token-server oracle.  Faithful to the source's order of effects: the
`www-authenticate` header is demanded (exactly one value) before the
status code is inspected; a 200 probe short-circuits to success with no
token request; only a 401 proceeds to challenge parsing, token-endpoint
construction (`uri_ok` models `hyper::Uri::from_str`), the token request,
and deserialization; `self.token` is assigned only on full success. -/
def login (c : Client) (scopes : List String) (uri_ok : String → Bool)
    (probe : Response) (token_server : String → Response) : LoginResult :=
  match header_values probe.headers "www-authenticate" with
  | [] => ⟨Except.error "missing header", c, []⟩
  | _ :: _ :: _ => ⟨Except.error "multiple headers", c, []⟩
  | [www_auth] =>
    if probe.status = 200 then ⟨Except.ok (), c, []⟩
    else if probe.status = 401 then
      match parse_challenge www_auth with
      | Except.error e => ⟨Except.error e, c, []⟩
      | Except.ok (realm, service) =>
        if uri_ok (build_token_ep realm service scopes) then
          if (token_server (build_token_ep realm service scopes)).status = 200 then
            match (token_server (build_token_ep realm service scopes)).body with
            | none => ⟨Except.error "decode", c, [build_token_ep realm service scopes]⟩
            | some j =>
              match parse_token_auth j with
              | none => ⟨Except.error "decode", c, [build_token_ep realm service scopes]⟩
              | some t => ⟨Except.ok (), { c with token := some t.token },
                           [build_token_ep realm service scopes]⟩
          else ⟨Except.error "status", c, [build_token_ep realm service scopes]⟩
        else ⟨Except.error "invalid uri", c, []⟩
    else ⟨Except.error "unexpected status", c, []⟩

/-- URL construction of `Client::get_catalog`: `?n=<limit>` is appended
exactly when a limit is supplied. -/
def catalog_url (c : Client) (limit : Option Nat) : String :=
  let s := c.base_url ++ "/v2/_catalog"
  match limit with
  | some n => s ++ "?n=" ++ toString n
  | none => s

/-- `Client::get_catalog`, run against a server oracle: it issues exactly
one request — to `catalog_url` — and deserializes a 200 body as `Catalog`;
a non-200 status, a non-JSON body, and a body that is not a `Catalog` are
all collapsed to `hyper::Error::Status`.  No `Link` header is ever read.
Returns the result together with the list of request URLs issued. -/
def get_catalog_run (c : Client) (limit : Option Nat) (server : String → Response) :
    Except String (List String) × List String :=
  let url := catalog_url c limit
  let r := server url
  let res : Except String (List String) :=
    if r.status = 200 then
      match r.body with
      | none => Except.error "status"
      | some j =>
        match parse_catalog j with
        | none => Except.error "status"
        | some cat => Except.ok cat.repositories
    else Except.error "status"
  (res, [url])

/-- A page of a paginated catalog listing, as the spec describes it:
its items and the optional `next` link advertised by the `Link` header. -/
structure CatalogPage where
  repositories : List String
  next : Option String
deriving DecidableEq, Repr

/-- JSON body a registry serves for a catalog page. -/
def page_json (p : CatalogPage) : Json :=
  Json.jobj [("repositories", Json.jarr (p.repositories.map Json.jstr))]

/-- Response headers a registry serves for a catalog page: a `Link`
header with `rel=next` exactly when the page has a successor. -/
def page_headers (p : CatalogPage) : List (String × String) :=
  match p.next with
  | some u => [("Link", "<" ++ u ++ ">; rel=\"next\"")]
  | none => []

/-- A registry serving a paginated catalog: every request is answered
with the first unserved page; here the model only ever needs the first
page because the client never issues a second request. -/
def serve_pages (pages : List CatalogPage) : String → Response :=
  fun _ =>
    match pages with
    | [] => ⟨404, [], none⟩
    | p :: _ => ⟨200, page_headers p, some (page_json p)⟩

/-- Follows the spec's words (claim C5): consuming a catalog listing of
N pages whose sizes sum to M items yields all M items in page order,
with one request per page, N in total. -/
def spec_catalog_consume (pages : List CatalogPage) : List String × Nat :=
  ((pages.map CatalogPage.repositories).flatten, pages.length)

/-- The `&scope=<sc>` suffix appended for each requested scope. -/
def scope_suffix : List String → String
  | [] => ""
  | sc :: rest => "&scope=" ++ sc ++ scope_suffix rest

theorem foldl_scope_suffix (scopes : List String) (acc : String) :
    scopes.foldl (fun a sc => a ++ "&scope=" ++ sc) acc = acc ++ scope_suffix scopes := by
  induction scopes generalizing acc with
  | nil => simp [scope_suffix]
  | cons x xs ih =>
      rw [List.foldl_cons, ih]
      simp [scope_suffix, String.append_assoc]

theorem parse_str_list_map_jstr (l : List String) :
    parse_str_list (l.map Json.jstr) = some l := by
  induction l with
  | nil => rfl
  | cons x xs ih => simp [parse_str_list, ih]

theorem join_amp_cons_scopes (x : String) (l : List String) :
    join_amp (x :: l.map (fun sc => "scope=" ++ sc)) = x ++ scope_suffix l := by
  induction l generalizing x with
  | nil => simp [join_amp, scope_suffix]
  | cons y ys ih =>
      have hamp : ∀ s : String, "&" ++ ("scope=" ++ s) = "&scope=" ++ s := by
        intro s
        rw [← String.append_assoc]
        rfl
      simp only [List.map_cons, join_amp, ih, scope_suffix, String.append_assoc, hamp]

/-- C1: the source demands the `www-authenticate` header (exactly one
value) before it looks at the probe status, so a 200 probe response
without that header makes `login` fail with `missing header` instead of
succeeding; only a 200 carrying such a header short-circuits to success
with no token-exchange request. -/
theorem c1_probe200_requires_header (c : Client) (scopes : List String)
    (uri_ok : String → Bool) (token_server : String → Response) (wa : String) :
    login c scopes uri_ok ⟨200, [], none⟩ token_server =
      ⟨Except.error "missing header", c, []⟩ ∧
    login c scopes uri_ok ⟨200, [("WWW-Authenticate", wa)], none⟩ token_server =
      ⟨Except.ok (), c, []⟩ :=
  ⟨rfl, rfl⟩

/-- C2 counterexample: a challenge containing the key `error`, outside
`{realm, service, scope}`, aborts parsing with `unsupported key` rather
than being skipped silently; and a challenge missing `realm` entirely is
not a parse failure — it parses to an empty realm. -/
theorem c2_counterexample :
    parse_challenge "Bearer realm=\"https://auth.example/token\",error=\"invalid\"" =
      Except.error "unsupported key" ∧
    parse_challenge "Bearer service=\"registry.example.com\"" =
      Except.ok ("", some "registry.example.com") :=
  ⟨rfl, rfl⟩

/-- C2 amended: any challenge item whose key falls outside
`{realm, service, scope}` (or a `realm`/`service` item lacking an `=`)
aborts parsing immediately with `unsupported key`; a challenge missing
the `realm` key parses successfully with an empty realm. -/
theorem c2_unknown_key_aborts :
    (∀ (auth_ep : String) (service : Option String) (item : String) (rest : List String),
      item_known item = false →
      parse_challenge_items (item :: rest) auth_ep service = Except.error "unsupported key") ∧
    parse_challenge "Bearer service=\"registry.example.com\"" =
      Except.ok ("", some "registry.example.com") := by
  constructor
  · intro auth_ep service item rest h
    simp only [item_known] at h
    simp only [parse_challenge_items]
    split <;> simp_all
  · rfl

theorem c2_unknown_key_aborts_witness :
    item_known "error=\"invalid\"" = false ∧
    parse_challenge_items ["error=\"invalid\""] "" none = Except.error "unsupported key" :=
  ⟨rfl, c2_unknown_key_aborts.1 "" none "error=\"invalid\"" [] rfl⟩

/-- C3: the `detail` field of `ApiError` is a plain `String`, so serde
requires it: the registry's own 404 payload without `detail` fails to
deserialize, while the same payload with `detail` succeeds — contradicting
the repository's test `test_base_api_error`, which asserts both fixtures
deserialize. -/
theorem c3_detail_field_mandatory :
    parse_errors (Json.jobj [("errors", Json.jarr [Json.jobj
        [("code", Json.jstr "UNAUTHORIZED"),
         ("message", Json.jstr "authentication required")]])]) = none ∧
    parse_errors (Json.jobj [("errors", Json.jarr [Json.jobj
        [("code", Json.jstr "UNAUTHORIZED"),
         ("message", Json.jstr "authentication required"),
         ("detail", Json.jstr "auth detail")]])]) =
      some ⟨[⟨"UNAUTHORIZED", "authentication required", "auth detail"⟩]⟩ :=
  ⟨rfl, rfl⟩

/-- C4: a request built by `Client::new_request` on a client built from a
`Config` (with any token state) carries `Authorization: Bearer <token>`
exactly when a token is held, and always carries a `User-Agent` — the
configured value when one was set, the library default otherwise. -/
theorem c4_signed_request_headers (cfg : Config) (t : Option String) (method url : String) :
    header_values (Client.new_request { Config.build cfg with token := t } method url).req_headers
        "authorization" =
      (match t with
       | some tok => ["Bearer " ++ tok]
       | none => []) ∧
    header_values (Client.new_request { Config.build cfg with token := t } method url).req_headers
        "user-agent" =
      [cfg.user_agent_cfg.getD USER_AGENT] := by
  obtain ⟨r, u, p, ua⟩ := cfg
  cases t <;> cases ua <;> exact ⟨rfl, rfl⟩

/-- C5 counterexample: against a catalog listing spanning 2 pages whose
sizes sum to 3 items (the first page advertising a `next` link, the last
lacking one), `get_catalog` issues a single request and yields only the
first page's 2 items — not the 3 items over 2 requests the claim
describes. -/
theorem c5_counterexample :
    get_catalog_run ⟨"http://registry.example", none, "", none, none⟩ none
        (serve_pages [⟨["r1", "r2"], some "http://registry.example/v2/_catalog?last=r2"⟩,
                      ⟨["r3"], none⟩]) =
      (Except.ok ["r1", "r2"], ["http://registry.example/v2/_catalog"]) ∧
    spec_catalog_consume [⟨["r1", "r2"], some "http://registry.example/v2/_catalog?last=r2"⟩,
                          ⟨["r3"], none⟩] =
      (["r1", "r2", "r3"], 2) ∧
    (["r1", "r2"] : List String) ≠ ["r1", "r2", "r3"] ∧
    (1 : Nat) ≠ 2 :=
  ⟨rfl, rfl, by decide, by decide⟩

/-- C5 amended: `get_catalog` issues exactly one HTTP request (to
`catalog_url`) and returns only the first page's repositories, never
following a `Link` header; the claimed pagination behaviour therefore
holds only for single-page listings. -/
theorem c5_first_page_only (c : Client) (limit : Option Nat) (server : String → Response)
    (p : CatalogPage) (rest : List CatalogPage) :
    (get_catalog_run c limit server).2 = [catalog_url c limit] ∧
    (get_catalog_run c limit (serve_pages (p :: rest))).1 = Except.ok p.repositories := by
  refine ⟨rfl, ?_⟩
  simp [get_catalog_run, serve_pages, page_json, parse_catalog, get_field, parse_str_list_map_jstr]

/-- C6 counterexample: when the challenge supplied no `service`, the
requested scopes are appended with `&` but no `?` was ever written, so
the resulting token URL is not the realm plus query parameters the claim
describes. -/
theorem c6_counterexample :
    build_token_ep "https://auth.example/token" none ["repository:foo:pull"] =
      "https://auth.example/token&scope=repository:foo:pull" ∧
    claimed_token_ep "https://auth.example/token" none ["repository:foo:pull"] =
      "https://auth.example/token?scope=repository:foo:pull" ∧
    ("https://auth.example/token&scope=repository:foo:pull" : String) ≠
      "https://auth.example/token?scope=repository:foo:pull" :=
  ⟨rfl, rfl, by decide⟩

/-- C6 amended: when the challenge supplied a `service`, the token URL is
exactly the realm plus query parameters — `service` first, then one
`scope` key per requested scope, repeated in caller order, never merged;
when no `service` was supplied, the scopes are still appended in caller
order but as `&scope=<sc>` pieces after the bare realm, without the `?`
that would make them query parameters. -/
theorem c6_token_ep_characterization (realm sv : String) (scopes : List String) :
    build_token_ep realm (some sv) scopes = claimed_token_ep realm (some sv) scopes ∧
    build_token_ep realm none scopes = realm ++ scope_suffix scopes := by
  constructor
  · have hlhs : build_token_ep realm (some sv) scopes =
        realm ++ "?service=" ++ sv ++ scope_suffix scopes := by
      show List.foldl (fun acc sc => acc ++ "&scope=" ++ sc) (realm ++ "?service=" ++ sv) scopes =
        realm ++ "?service=" ++ sv ++ scope_suffix scopes
      exact foldl_scope_suffix scopes (realm ++ "?service=" ++ sv)
    have hrhs : claimed_token_ep realm (some sv) scopes =
        realm ++ "?" ++ (("service=" ++ sv) ++ scope_suffix scopes) := by
      simp [claimed_token_ep, join_amp_cons_scopes]
    rw [hlhs, hrhs]
    have hq : ∀ s : String, "?" ++ ("service=" ++ s) = "?service=" ++ s := by
      intro s
      rw [← String.append_assoc]
      rfl
    simp [String.append_assoc, hq]
  · simp [build_token_ep, foldl_scope_suffix]

/-- C8: the single catalog request carries the query parameter
`n=<limit>` exactly when a limit was supplied, and no `n` parameter
otherwise; `get_catalog` never issues any further request (so no later
page request exists to carry one). -/
theorem c8_catalog_limit_forwarding (c : Client) (n : Nat) (limit : Option Nat)
    (server : String → Response) :
    catalog_url c (some n) = c.base_url ++ ("/v2/_catalog?n=" ++ toString n) ∧
    catalog_url c none = c.base_url ++ "/v2/_catalog" ∧
    (get_catalog_run c limit server).2 = [catalog_url c limit] := by
  refine ⟨?_, rfl, rfl⟩
  show c.base_url ++ "/v2/_catalog" ++ "?n=" ++ toString n =
    c.base_url ++ ("/v2/_catalog?n=" ++ toString n)
  rw [String.append_assoc (c.base_url ++ "/v2/_catalog") "?n=" (toString n),
      String.append_assoc c.base_url "/v2/_catalog" ("?n=" ++ toString n),
      ← String.append_assoc "/v2/_catalog" "?n=" (toString n)]
  rfl

/-- C7: on a 401 probe carrying exactly one well-formed challenge, when
the token endpoint answers 200 with a body deserializing as `TokenAuth`,
`login` succeeds after exactly one token request and the stored token is
exactly the `token` string of the response body. -/
theorem c7_login_stores_exact_token (c : Client) (scopes : List String)
    (uri_ok : String → Bool) (probe : Response) (token_server : String → Response)
    (wa realm : String) (service : Option String) (j : Json) (t : TokenAuth)
    (hwa : header_values probe.headers "www-authenticate" = [wa])
    (hstatus : probe.status = 401)
    (hchal : parse_challenge wa = Except.ok (realm, service))
    (huri : uri_ok (build_token_ep realm service scopes) = true)
    (hts : (token_server (build_token_ep realm service scopes)).status = 200)
    (hbody : (token_server (build_token_ep realm service scopes)).body = some j)
    (htok : parse_token_auth j = some t) :
    login c scopes uri_ok probe token_server =
      ⟨Except.ok (), { c with token := some t.token }, [build_token_ep realm service scopes]⟩ := by
  unfold login
  rw [hwa]
  simp [hstatus, hchal, huri, hts, hbody, htok]

theorem c7_login_stores_exact_token_witness :
    header_values [("WWW-Authenticate",
        "Bearer realm=\"https://auth.example/token\",service=\"registry.example\"")]
        "www-authenticate" =
      ["Bearer realm=\"https://auth.example/token\",service=\"registry.example\""] ∧
    parse_challenge "Bearer realm=\"https://auth.example/token\",service=\"registry.example\"" =
      Except.ok ("https://auth.example/token", some "registry.example") ∧
    parse_token_auth (Json.jobj [("token", Json.jstr "tok123")]) =
      some ⟨"tok123", none, none, none⟩ ∧
    login ⟨"http://registry.example", none, "", none, none⟩ ["repository:foo:pull"]
        (fun _ => true)
        ⟨401, [("WWW-Authenticate",
           "Bearer realm=\"https://auth.example/token\",service=\"registry.example\"")], none⟩
        (fun _ => ⟨200, [], some (Json.jobj [("token", Json.jstr "tok123")])⟩) =
      ⟨Except.ok (), ⟨"http://registry.example", none, "", none, some "tok123"⟩,
       ["https://auth.example/token?service=registry.example&scope=repository:foo:pull"]⟩ :=
  ⟨rfl, rfl, rfl,
   c7_login_stores_exact_token
     ⟨"http://registry.example", none, "", none, none⟩ ["repository:foo:pull"]
     (fun _ => true)
     ⟨401, [("WWW-Authenticate",
        "Bearer realm=\"https://auth.example/token\",service=\"registry.example\"")], none⟩
     (fun _ => ⟨200, [], some (Json.jobj [("token", Json.jstr "tok123")])⟩)
     "Bearer realm=\"https://auth.example/token\",service=\"registry.example\""
     "https://auth.example/token" (some "registry.example")
     (Json.jobj [("token", Json.jstr "tok123")]) ⟨"tok123", none, none, none⟩
     rfl rfl rfl rfl rfl rfl rfl⟩

/-- C9: `login` assigns `self.token` only at the very end of a fully
successful exchange; every error return — missing or multiple probe
headers, unexpected status, challenge-parse failure, invalid token URL,
non-200 token response, or token-body decode failure — leaves the
client's token exactly as it was. -/
theorem c9_login_error_leaves_token (c : Client) (scopes : List String)
    (uri_ok : String → Bool) (probe : Response) (token_server : String → Response)
    (e : String)
    (h : (login c scopes uri_ok probe token_server).outcome = Except.error e) :
    (login c scopes uri_ok probe token_server).client.token = c.token := by
  unfold login at h ⊢
  split <;> try rfl
  split <;> try rfl
  split <;> try rfl
  split <;> try rfl
  split <;> try rfl
  split <;> try rfl
  split <;> try rfl
  split <;> try rfl
  simp_all

theorem c9_login_error_leaves_token_witness :
    (login ⟨"http://registry.example", none, "", none, some "old-token"⟩ []
        (fun _ => true) ⟨200, [], none⟩ (fun _ => ⟨404, [], none⟩)).outcome =
      Except.error "missing header" ∧
    (login ⟨"http://registry.example", none, "", none, some "old-token"⟩ []
        (fun _ => true) ⟨200, [], none⟩ (fun _ => ⟨404, [], none⟩)).client.token =
      some "old-token" :=
  ⟨rfl,
   c9_login_error_leaves_token ⟨"http://registry.example", none, "", none, some "old-token"⟩ []
     (fun _ => true) ⟨200, [], none⟩ (fun _ => ⟨404, [], none⟩) "missing header" rfl⟩

/-- C10: for every response, `is_v2_supported` and `is_auth` resolve to
`Ok` of a boolean rather than an error: the first is `true` exactly when
the status is 200 or 401 and the raw `Docker-Distribution-API-Version`
header equals `registry/2.0`, the second exactly when the status is
200. -/
theorem c10_checks_total (r : Response) :
    (∃ b, is_v2_supported_check r = Except.ok b ∧
      (b = true ↔ ((r.status = 200 ∨ r.status = 401) ∧
        get_raw r.headers "Docker-Distribution-API-Version" = some ["registry/2.0"]))) ∧
    (∃ b, is_auth_check r = Except.ok b ∧ (b = true ↔ r.status = 200)) := by
  constructor
  · unfold is_v2_supported_check
    split
    · next x heq =>
        refine ⟨_, rfl, ?_⟩
        simp_all [beq_iff_eq]
    · next x heq =>
        refine ⟨_, rfl, ?_⟩
        simp_all [beq_iff_eq]
    · next h1 h2 =>
        refine ⟨false, rfl, iff_of_false (by simp) ?_⟩
        rintro ⟨hs | hs, hg⟩
        · exact h1 _ hs hg
        · exact h2 _ hs hg
  · unfold is_auth_check
    split
    · next heq => exact ⟨true, rfl, by simp_all⟩
    · next heq => exact ⟨false, rfl, by simp_all⟩
